import Mathlib

/-!
Verification development for the shorts_tracker repository
(`src/app/main.py`, `src/app/services/ytdlp_service.py`, `src/app/models.py`).

The Python code is shallowly embedded: SQLModel rows become Lean structures,
datetimes become `Int` numbers of seconds since the epoch (a `timedelta` of
`h` hours is `h * 3600` seconds), SQL queries on a per-table list of rows are
written out as the list operations they perform, and Python's `int(x / y)`
(true division followed by truncation toward zero) is `Int.tdiv` — exact for
the magnitudes the application stores, which are far below 2^53.
External effects (the network fetch, avatar disk caching, an exception thrown
inside the persisting `try` block) are supplied as explicit oracle arguments,
so that every control-flow path of the embedded function is the image of a
concrete run of the source.
-/

namespace ShortsTracker

/-- `app/models.py` — `Channel` row.  The auto-generated primary key is kept
(`id`); `created_at` is dropped as no embedded function reads it. -/
structure Channel where
  id : Int
  title : String
  url : String
  avatar_url : Option String
  subscriber_count : Option Int
  last_refreshed_at : Option Int
  last_error : Option String
  delta_total_views : Option Int
  delta_avg_views : Option Int
  delta_median_views : Option Int
  delta_top_video_views : Option Int
  delta_total_likes : Option Int
  delta_total_comments : Option Int
deriving DecidableEq, Repr

/-- `app/models.py` — `Video` row.  The surrogate `id` and the
`extracted_at` default timestamp are dropped: no embedded function reads
them.  `upload_date` is an abstract day number. -/
structure Video where
  channel_id : Int
  title : String
  url : String
  upload_date : Option Int
  duration_seconds : Option Int
  view_count : Option Int
  like_count : Option Int
  comment_count : Option Int
  view_delta : Option Int
  like_delta : Option Int
  comment_delta : Option Int
  thumbnail_url : Option String
deriving DecidableEq, Repr

/-- `app/models.py` — `ChannelSnapshot` row. -/
structure ChannelSnapshot where
  id : Int
  channel_id : Int
  captured_at : Int
  total_views : Int
  total_likes : Int
  total_comments : Int
  subscriber_count : Option Int
deriving DecidableEq, Repr

/-- `app/services/ytdlp_service.py` — `VideoPayload` dataclass. -/
structure VideoPayload where
  title : String
  url : String
  upload_date : Option Int
  duration_seconds : Option Int
  view_count : Option Int
  like_count : Option Int
  comment_count : Option Int
  thumbnail_url : Option String
deriving DecidableEq, Repr

/-- `app/services/ytdlp_service.py` — `ChannelPayload` dataclass. -/
structure ChannelPayload where
  title : String
  url : String
  avatar_url : Option String
  subscriber_count : Option Int
  videos : List VideoPayload
deriving DecidableEq, Repr

/-! ## Aggregation (`_view_stats`, `_aggregate_for_channel`) -/

/-- `main.py` lines 799–808, `_view_stats(values)`: called on an ascending
sorted list of the non-null view counts; returns `(avg, median, top)`.
`int(sum(values) / len(values))` and `int((a + b) / 2)` truncate toward
zero, hence `Int.tdiv`. -/
def viewStats (values : List Int) : Int × Int × Int :=
  if values = [] then (0, 0, 0)
  else
    let top := values.getLastD 0
    let avg := Int.tdiv values.sum values.length
    let median :=
      if values.length % 2 = 1 then
        values.getD (values.length / 2) 0
      else
        Int.tdiv (values.getD (values.length / 2 - 1) 0 + values.getD (values.length / 2) 0) 2
    (avg, median, top)

/-- Result record of `_aggregate_for_channel` (`main.py` lines 703–710). -/
structure Aggregates where
  total_views : Int
  avg_views : Int
  total_likes : Int
  total_comments : Int
  median_views : Int
  top_video_views : Int
deriving DecidableEq, Repr

/-- `main.py` lines 672–710, `_aggregate_for_channel`, restricted to the rows
of one channel (the `WHERE channel_id = …` clause is applied by the caller of
this embedding).  SQL `SUM` ignores NULLs and `COALESCE(…, 0)` maps an empty
result to 0, which equals summing `view_count or 0`; SQL `AVG` averages the
non-null values only, and `int(float(...))` truncates toward zero. -/
def aggregateForChannel (videos : List Video) : Aggregates :=
  let total_views := (videos.map (fun v => v.view_count.getD 0)).sum
  let total_likes := (videos.map (fun v => v.like_count.getD 0)).sum
  let total_comments := (videos.map (fun v => v.comment_count.getD 0)).sum
  let nonnull := videos.filterMap (fun v => v.view_count)
  let avg_views := if nonnull.length = 0 then 0 else Int.tdiv nonnull.sum nonnull.length
  let view_values := List.insertionSort (· ≤ ·) nonnull
  let count := view_values.length
  let median_views :=
    if count = 0 then 0
    else if count % 2 = 1 then view_values.getD (count / 2) 0
    else Int.tdiv (view_values.getD (count / 2 - 1) 0 + view_values.getD (count / 2) 0) 2
  let top_video_views := if count = 0 then 0 else view_values.getLastD 0
  { total_views := total_views
    avg_views := avg_views
    total_likes := total_likes
    total_comments := total_comments
    median_views := median_views
    top_video_views := top_video_views }

/-- A `Video` row carrying only a view count, for concrete test inputs. -/
def vidWithViews (v : Option Int) : Video :=
  { channel_id := 1, title := "t", url := "u", upload_date := none,
    duration_seconds := none, view_count := v, like_count := none,
    comment_count := none, view_delta := none, like_delta := none,
    comment_delta := none, thumbnail_url := none }

/-- A `Channel` row with a given `last_refreshed_at`, for concrete test
inputs. -/
def mkChannel (lastRef : Option Int) : Channel :=
  { id := 1, title := "c", url := "u", avatar_url := none,
    subscriber_count := none, last_refreshed_at := lastRef,
    last_error := none, delta_total_views := none, delta_avg_views := none,
    delta_median_views := none, delta_top_video_views := none,
    delta_total_likes := none, delta_total_comments := none }

/-! ## Cache validity (`_is_cache_valid`, `main.py` lines 663–669) -/

/-- `main.py` lines 663–669.  A `datetime` is always truthy, so
`if not channel.last_refreshed_at` is exactly the `none` test; the final
comparison is `now - last_refreshed_at < timedelta(hours=interval)`. -/
def isCacheValid (channel : Channel) (now : Int) (intervalHours : Int) (force : Bool) : Bool :=
  if force then false
  else
    match channel.last_refreshed_at with
    | none => false
    | some t => decide (now - t < intervalHours * 3600)

/-! ## Reconciliation (`_refresh_channel` body, `main.py` lines 849–890) -/

/-- Python `x or y` on two optional strings: `x` unless it is `None` or
empty, else `y`. -/
def strOr (a b : Option String) : Option String :=
  if a.getD "" = "" then b else a

/-- `existing_by_url = {video.url: video for video in existing_videos if video.url}`
followed by `existing_by_url.get(url)`: the last video with this (non-empty)
URL wins, because later dict insertions overwrite earlier ones. -/
def existingByUrl (videos : List Video) (url : String) : Option Video :=
  (videos.filter (fun v => (!(v.url == "")) && v.url == url)).getLast?

/-- One iteration of the reconciliation loop (`main.py` lines 850–890):
backfill missing fields of the fresh `item` from the existing video at the
same URL, and compute the per-video deltas.  The `or`-based backfills
(upload date, duration, thumbnail, title) fall back on any falsy value
(`None`, `0`, `""`); the count backfills test `is not None` only.  Each
delta compares the **merged** count against the old one and is set exactly
when both are non-null. -/
def mergedVideo (old? : Option Video) (cid : Int) (item : VideoPayload) : Video :=
  let upload_date := match item.upload_date with
    | some d => some d
    | none => old?.bind (fun o => o.upload_date)
  let duration_seconds :=
    if item.duration_seconds = none ∨ item.duration_seconds = some 0 then
      old?.bind (fun o => o.duration_seconds)
    else item.duration_seconds
  let view_count := match item.view_count with
    | some v => some v
    | none => old?.bind (fun o => o.view_count)
  let like_count := match item.like_count with
    | some v => some v
    | none => old?.bind (fun o => o.like_count)
  let comment_count := match item.comment_count with
    | some v => some v
    | none => old?.bind (fun o => o.comment_count)
  let thumbnail_url := strOr item.thumbnail_url (old?.bind (fun o => o.thumbnail_url))
  let title :=
    if item.title = "" then
      match old? with
      | some o => o.title
      | none => "Untitled video"
    else item.title
  let view_delta := match old? with
    | some o =>
      match o.view_count, view_count with
      | some ov, some nv => some (nv - ov)
      | _, _ => none
    | none => none
  let like_delta := match old? with
    | some o =>
      match o.like_count, like_count with
      | some ov, some nv => some (nv - ov)
      | _, _ => none
    | none => none
  let comment_delta := match old? with
    | some o =>
      match o.comment_count, comment_count with
      | some ov, some nv => some (nv - ov)
      | _, _ => none
    | none => none
  { channel_id := cid, title := title, url := item.url,
    upload_date := upload_date, duration_seconds := duration_seconds,
    view_count := view_count, like_count := like_count,
    comment_count := comment_count, view_delta := view_delta,
    like_delta := like_delta, comment_delta := comment_delta,
    thumbnail_url := thumbnail_url }

/-- The per-video delta rule as the code implements it: a delta is set
exactly when both the old stored count and the merged (backfilled) new
count are known, and is then their difference. -/
def deltaWhenBothKnown (oldc newc : Option Int) : Option Int :=
  match oldc, newc with
  | some a, some b => some (b - a)
  | _, _ => none

/-! ## Snapshot store (`_save_channel_snapshot`, `main.py` lines 713–740) -/

/-- One step of the maximum search over `(captured_at, id)`. -/
def latestStep (acc : Option ChannelSnapshot) (s : ChannelSnapshot) : Option ChannelSnapshot :=
  match acc with
  | none => some s
  | some b =>
    if b.captured_at < s.captured_at ∨ (b.captured_at = s.captured_at ∧ b.id < s.id)
    then some s else some b

/-- The `ORDER BY captured_at DESC, id DESC LIMIT 1` query over one
channel's snapshots: the row maximising `(captured_at, id)`
lexicographically. -/
def latestSnapshotFor (snaps : List ChannelSnapshot) (cid : Int) : Option ChannelSnapshot :=
  (snaps.filter (fun s => s.channel_id == cid)).foldl latestStep none

/-- `main.py` lines 713–740, `_save_channel_snapshot`: a no-op when the
channel's latest snapshot is younger than 24 hours, otherwise append one
snapshot row.  Returns the new table and the next free snapshot id. -/
def saveChannelSnapshot (snaps : List ChannelSnapshot) (nextId : Int)
    (cid tv tl tc : Int) (sub : Option Int) (now : Int) :
    List ChannelSnapshot × Int :=
  match latestSnapshotFor snaps cid with
  | some latest =>
    if now - latest.captured_at < 24 * 3600 then (snaps, nextId)
    else (snaps ++ [⟨nextId, cid, now, tv, tl, tc, sub⟩], nextId + 1)
  | none => (snaps ++ [⟨nextId, cid, now, tv, tl, tc, sub⟩], nextId + 1)

/-- The rolling-window invariant of the snapshot time series: any two
snapshots of channel `cid` were captured at least 24 hours apart. -/
def SnapshotsSeparated (snaps : List ChannelSnapshot) (cid : Int) : Prop :=
  (snaps.filter (fun s => s.channel_id == cid)).Pairwise
    (fun a b => a.captured_at + 86400 ≤ b.captured_at ∨ b.captured_at + 86400 ≤ a.captured_at)

/-! ## The per-channel refresh transaction (`_refresh_channel`, lines 787–926) -/

/-- The rows the refresh of one channel can read or write. -/
structure DBState where
  channel : Channel
  videos : List Video
  snapshots : List ChannelSnapshot
  nextSnapId : Int
deriving DecidableEq, Repr

/-- The outcome of `fetch_channel_data` as seen by `_refresh_channel`:
a payload, a `YtDlpFetchError`, or any other exception. -/
inductive FetchOutcome where
  | ok (payload : ChannelPayload)
  | fetchErr (msg : String)
  | unexpectedErr (msg : String)
deriving DecidableEq, Repr

/-- `channel.last_error = msg; session.add(channel); session.commit()` on an
otherwise clean session. -/
def commitLastError (db : DBState) (msg : String) : DBState :=
  { db with channel := { db.channel with last_error := some msg } }

/-- Localisation is modelled by the message key itself (`_t(lang, key)`). -/
def msgSkippedCache : String := "msg_skipped_cache"

/-- Message key for the empty-fetch guard (`msg_refresh_kept_old`). -/
def msgRefreshKeptOld : String := "msg_refresh_kept_old"

/-- Success message of a completed refresh (`msg_refreshed_channel`),
formatted with the (updated) channel title and the fetched video count. -/
def msgRefreshedChannel (title : String) (count : Nat) : String :=
  "msg_refreshed_channel " ++ title ++ " " ++ toString count

/-- Sums of `int(view_count or 0)`, `int(like_count or 0)`,
`int(comment_count or 0)` over a video list (`main.py` lines 794-796 for the
old rows, the `total_* +=` accumulators of lines 859-861 for the new ones). -/
def totalsOf (vs : List Video) : Int × Int × Int :=
  ((vs.map (fun v => v.view_count.getD 0)).sum,
   (vs.map (fun v => v.like_count.getD 0)).sum,
   (vs.map (fun v => v.comment_count.getD 0)).sum)

/-- Channel-field update at the top of the persisting `try` block
(`main.py` lines 837–842). -/
def applyChannelCore (payload : ChannelPayload) (cachedAvatar : Option String)
    (now : Int) (st : DBState) : DBState :=
  let ch := st.channel
  { st with channel := { ch with
      title := if payload.title = "" then ch.title else payload.title
      url := if payload.url = "" then ch.url else payload.url
      avatar_url := strOr cachedAvatar (strOr payload.avatar_url ch.avatar_url)
      subscriber_count := match payload.subscriber_count with
        | some s => some s
        | none => ch.subscriber_count
      last_refreshed_at := some now
      last_error := none } }

/-- `session.exec(delete(Video).where(Video.channel_id == channel.id))`. -/
def deleteChannelVideos (cid : Int) (st : DBState) : DBState :=
  { st with videos := st.videos.filter (fun v => !(v.channel_id == cid)) }

/-- `session.add(Video(...))` for one reconciled row. -/
def insertVideo (v : Video) (st : DBState) : DBState :=
  { st with videos := st.videos ++ [v] }

/-- The six channel delta fields (`main.py` lines 894–907): set when the
channel had stored videos before, cleared to null otherwise. -/
def setChannelDeltas (hasPrevious : Bool) (dtv dav dmv dtop dtl dtc : Int)
    (st : DBState) : DBState :=
  let ch := st.channel
  if hasPrevious then
    { st with channel := { ch with
        delta_total_views := some dtv, delta_avg_views := some dav,
        delta_median_views := some dmv, delta_top_video_views := some dtop,
        delta_total_likes := some dtl, delta_total_comments := some dtc } }
  else
    { st with channel := { ch with
        delta_total_views := none, delta_avg_views := none,
        delta_median_views := none, delta_top_video_views := none,
        delta_total_likes := none, delta_total_comments := none } }

/-- The `_save_channel_snapshot` call of the persisting phase. -/
def saveSnapshotOp (cid tv tl tc : Int) (sub : Option Int) (now : Int)
    (st : DBState) : DBState :=
  let r := saveChannelSnapshot st.snapshots st.nextSnapId cid tv tl tc sub now
  { st with snapshots := r.1, nextSnapId := r.2 }

/-- The persisting phase of `_refresh_channel` (`try` block, lines 835–918)
as the ordered list of session mutations it performs: channel-field update,
delete of the channel's video rows, one insert per reconciled video, the six
delta fields, the throttled snapshot.  All inputs of the pure computations
(`existing_by_url`, old totals and view stats) were read before the block,
from `db0`. -/
def persistOps (db0 : DBState) (payload : ChannelPayload)
    (cachedAvatar : Option String) (now : Int) : List (DBState → DBState) :=
  let cid := db0.channel.id
  let existing := db0.videos.filter (fun v => v.channel_id == cid)
  let merged := payload.videos.map (fun item => mergedVideo (existingByUrl existing item.url) cid item)
  let hasPrevious := !existing.isEmpty
  let oldTotals := totalsOf existing
  let oldViews := List.insertionSort (· ≤ ·) (existing.filterMap (fun v => v.view_count))
  let oldStats := viewStats oldViews
  let newTotals := totalsOf merged
  let newViews := List.insertionSort (· ≤ ·) (merged.filterMap (fun v => v.view_count))
  let newStats := viewStats newViews
  [applyChannelCore payload cachedAvatar now, deleteChannelVideos cid]
  ++ merged.map insertVideo
  ++ [setChannelDeltas hasPrevious
        (newTotals.1 - oldTotals.1) (newStats.1 - oldStats.1)
        (newStats.2.1 - oldStats.2.1) (newStats.2.2 - oldStats.2.2)
        (newTotals.2.1 - oldTotals.2.1) (newTotals.2.2 - oldTotals.2.2),
      saveSnapshotOp cid newTotals.1 newTotals.2.1 newTotals.2.2
        payload.subscriber_count now]

/-- Result of `_refresh_channel`: the committed database state and the
`(success, message)` pair the function returns. -/
structure RefreshResult where
  db : DBState
  ok : Bool
  msg : String
deriving DecidableEq, Repr

/-- `main.py` lines 791–926: the body of `_refresh_channel` after the
cache-validity entry guard.

Oracles: `fetch` is the outcome of the network fetch, `cachedAvatar` the
return value of the external `_cache_avatar_locally`, and `failAfter` models
an exception inside the persisting `try` block: `some (k, exc)` means the
exception `exc` is raised after the first `k` session mutations of
`persistOps`.  The mutations all act on the session's uncommitted pending
state; the single `session.commit()` sits at the end of the block, so on an
exception `session.rollback()` discards the partial pending state
(`pendingPartial` below is dropped) and only
`last_error = "Unexpected refresh error: …"` is committed afterwards. -/
def refreshFetched (db : DBState) (now : Int) (fetch : FetchOutcome)
    (cachedAvatar : Option String) (failAfter : Option (Nat × String)) : RefreshResult :=
  let existing := db.videos.filter (fun v => v.channel_id == db.channel.id)
  match fetch with
  | .fetchErr m => ⟨commitLastError db m, false, m⟩
  | .unexpectedErr m =>
    let m' := "Unexpected fetch error: " ++ m
    ⟨commitLastError db m', false, m'⟩
  | .ok payload =>
    if existing ≠ [] ∧ payload.videos = [] then
      ⟨commitLastError db msgRefreshKeptOld, false, msgRefreshKeptOld⟩
    else
      match failAfter with
      | some ke =>
        let _pendingPartial :=
          ((persistOps db payload cachedAvatar now).take ke.1).foldl (fun st op => op st) db
        -- `session.rollback()`: `_pendingPartial` never reaches the database
        let m := "Unexpected refresh error: " ++ ke.2
        ⟨commitLastError db m, false, m⟩
      | none =>
        let db' := (persistOps db payload cachedAvatar now).foldl (fun st op => op st) db
        ⟨db', true, msgRefreshedChannel db'.channel.title payload.videos.length⟩

/-- `main.py` lines 787–789 wrapped around the body: the cache-validity
entry guard, then `refreshFetched`. -/
def refreshChannel (db : DBState) (now : Int) (intervalHours : Int) (force : Bool)
    (fetch : FetchOutcome) (cachedAvatar : Option String)
    (failAfter : Option (Nat × String)) : RefreshResult :=
  if isCacheValid db.channel now intervalHours force then
    ⟨db, true, msgSkippedCache⟩
  else
    refreshFetched db now fetch cachedAvatar failAfter

/-! ## Job manager (`REFRESH_JOBS`, `main.py` lines 368–506, 1354–1409) -/

/-- The fields of a `REFRESH_JOBS` entry that the cancel check and the
garbage collector read (`finished`, `cancel_requested`, and the
already-parsed `finished_at` / `started_at` ISO timestamps, `None` standing
for an empty or unparsable string).  The remaining fields of the dict
(counters, messages, redirect URL) are carried by the worker model
`runRefreshAllJob` below. -/
structure JobRecord where
  finished : Bool
  cancel_requested : Bool
  finished_at : Option Int
  started_at : Option Int
deriving DecidableEq, Repr

/-- `main.py` lines 376–381, `_is_refresh_job_cancel_requested`: a missing
job id reads as a requested cancellation. -/
def isRefreshJobCancelRequested (jobs : List (String × JobRecord)) (jobId : String) : Bool :=
  match jobs.lookup jobId with
  | none => true
  | some j => j.cancel_requested

/-- `main.py` line 35. -/
def REFRESH_JOB_TTL_HOURS : Int := 24

/-- `main.py` line 36. -/
def REFRESH_JOB_MAX_STORED : Nat := 200

/-- `timestamp = finished_at or started_at` for a finished job (datetimes
are always truthy, so only `None` falls through). -/
def jobTimeKey (j : JobRecord) : Option Int :=
  j.finished_at.orElse (fun _ => j.started_at)

/-- The sort key of the cap phase: `(finished_at or started_at or
datetime.min, job_id)`, compared as a Python tuple.  `WithBot Int` places
the `datetime.min` fallback below every real timestamp. -/
def jobSortKey (jobId : String) (j : JobRecord) : WithBot Int × String :=
  (match jobTimeKey j with
   | some t => (t : WithBot Int)
   | none => ⊥,
   jobId)

/-- Ascending lexicographic order on the cap-phase sort keys. -/
def keyLe (a b : WithBot Int × String) : Prop :=
  a.1 < b.1 ∨ (a.1 = b.1 ∧ a.2 ≤ b.2)

instance : DecidableRel keyLe := fun a b => by
  unfold keyLe; infer_instance

/-- The TTL phase of `_cleanup_refresh_jobs` (`main.py` lines 397–408):
drop every finished job whose `(finished_at or started_at)` timestamp is
older than the 24-hour TTL (jobs with no parsable timestamp are kept). -/
def ttlKept (jobs : List (String × JobRecord)) (now : Int) :
    List (String × JobRecord) :=
  jobs.filter (fun jr =>
    !(jr.2.finished &&
      (match jobTimeKey jr.2 with
       | some t => decide (t < now - REFRESH_JOB_TTL_HOURS * 3600)
       | none => false)))

/-- The cap phase's victim list (`main.py` lines 414–423): the job ids of
the first `ovf` entries of `sorted(sortable)`, where `sortable` holds one
`(timestamp, job_id)` tuple per finished job. -/
def capDoomed (kept : List (String × JobRecord)) (ovf : Nat) : List String :=
  ((List.insertionSort keyLe ((kept.filter (fun jr => jr.2.finished)).map
      (fun jr => jobSortKey jr.1 jr.2))).take ovf).map (fun p => p.2)

/-- `main.py` lines 384–424, `_cleanup_refresh_jobs`: the TTL phase, then,
with `overflow = len(REFRESH_JOBS) - 200` computed over the whole remaining
table (finished **and** unfinished entries), drop the `overflow` finished
jobs with the smallest `(timestamp, job_id)` keys. -/
def cleanupRefreshJobs (jobs : List (String × JobRecord)) (now : Int) :
    List (String × JobRecord) :=
  if ((ttlKept jobs now).length : Int) - (REFRESH_JOB_MAX_STORED : Int) ≤ 0 then
    ttlKept jobs now
  else
    (ttlKept jobs now).filter (fun jr =>
      !((capDoomed (ttlKept jobs now)
          (((ttlKept jobs now).length : Int) - (REFRESH_JOB_MAX_STORED : Int)).toNat).contains
        jr.1))

instance : IsTotal (WithBot Int × String) keyLe := by
  constructor
  intro a b
  rcases lt_trichotomy a.1 b.1 with h | h | h
  · exact Or.inl (Or.inl h)
  · rcases le_total a.2 b.2 with h2 | h2
    · exact Or.inl (Or.inr ⟨h, h2⟩)
    · exact Or.inr (Or.inr ⟨h.symm, h2⟩)
  · exact Or.inr (Or.inl h)

instance : IsTrans (WithBot Int × String) keyLe := by
  constructor
  intro a b c hab hbc
  rcases hab with h1 | ⟨h1, h1'⟩
  · rcases hbc with h2 | ⟨h2, _⟩
    · exact Or.inl (h1.trans h2)
    · exact Or.inl (h2 ▸ h1)
  · rcases hbc with h2 | ⟨h2, h2'⟩
    · exact Or.inl (h1 ▸ h2)
    · exact Or.inr ⟨h1.trans h2, h1'.trans h2'⟩

/-- A job record that is still running (worker not finished). -/
def runningJobRec : JobRecord := ⟨false, false, none, some 0⟩

/-- A finished job record whose finish time is `t`. -/
def finishedJobRec (t : Int) : JobRecord := ⟨true, false, some t, some 0⟩

/-- A table of 200 unfinished jobs plus one fresh finished job: more than
200 entries in total, yet only one of them is finished. -/
def bigJobs : List (String × JobRecord) :=
  ((List.range 200).map (fun i => (Nat.repr i, runningJobRec))) ++
    [("f", finishedJobRec 1000000)]

/-- `main.py` lines 1387–1394, `GET /jobs/{job_id}`: garbage-collect, then
look the job up in the cleaned table (`none` is the 404 answer). -/
def getJobStatus (jobs : List (String × JobRecord)) (jobId : String) (now : Int) :
    List (String × JobRecord) × Option JobRecord :=
  let jobs' := cleanupRefreshJobs jobs now
  (jobs', jobs'.lookup jobId)

/-- Terminal job-progress fields written by `_run_refresh_all_job`. -/
structure JobFinal where
  finished : Bool
  cancelled : Bool
  done : Nat
  total : Nat
  refreshed : Nat
  skipped : Nat
  failed : Nat
deriving DecidableEq, Repr

/-- The worker loop of `_run_refresh_all_job` (`main.py` lines 456–497).
`outcomes` lists the `(ok, text)` result `_refresh_channel` would produce
for each remaining channel; `cancel i` is the value
`_is_refresh_job_cancel_requested` returns at the boundary before the
channel with index `i` (equivalently: when `done = i`). -/
def runJobGo (cancel : Nat → Bool) (total : Nat) :
    List (Bool × String) → Nat → Nat → Nat → Nat → JobFinal
  | [], done, r, s, f => ⟨true, false, done, total, r, s, f⟩
  | (ok, text) :: rest, done, r, s, f =>
    if cancel done then ⟨true, true, done, total, r, s, f⟩
    else if ok ∧ text = msgSkippedCache then runJobGo cancel total rest (done + 1) r (s + 1) f
    else if ok then runJobGo cancel total rest (done + 1) (r + 1) s f
    else runJobGo cancel total rest (done + 1) r s (f + 1)

/-- `main.py` lines 427–497, `_run_refresh_all_job`, with the per-channel
refresh outcomes supplied as an oracle list (one entry per channel, in
order).  The `total == 0` early return at line 434 coincides with
`runJobGo` on the empty list: finished, not cancelled, all counters zero. -/
def runRefreshAllJob (outcomes : List (Bool × String)) (cancel : Nat → Bool) : JobFinal :=
  runJobGo cancel outcomes.length outcomes 0 0 0 0

/-- Outcomes the loop buckets as refreshed (`ok` and not the cache-skip
message). -/
def countRefreshed (l : List (Bool × String)) : Nat :=
  (l.filter (fun p => p.1 && !(p.2 == msgSkippedCache))).length

/-- Outcomes the loop buckets as skipped (`ok` with the cache-skip
message). -/
def countSkipped (l : List (Bool × String)) : Nat :=
  (l.filter (fun p => p.1 && (p.2 == msgSkippedCache))).length

/-- Outcomes the loop buckets as failed (not `ok`). -/
def countFailed (l : List (Bool × String)) : Nat :=
  (l.filter (fun p => !p.1)).length

/-! ## Media-URL normalization (`_normalize_media_url`,
`ytdlp_service.py` lines 106–128)

Strings are modelled as lists of Unicode code points (`List Nat`), which
also represents the lone surrogates Python's `json` module may produce. -/

/-- Code points of a Lean string literal, for concrete inputs. -/
def strCodes (s : String) : List Nat := s.data.map Char.toNat

/-- `str.isspace` code points, as stripped by `str.strip()`. -/
def pyIsSpace (c : Nat) : Bool :=
  (9 ≤ c && c ≤ 13) || (28 ≤ c && c ≤ 32) || c = 133 || c = 160 || c = 5760 ||
  (8192 ≤ c && c ≤ 8202) || c = 8232 || c = 8233 || c = 8239 || c = 8287 || c = 12288

/-- `value = raw.strip()`. -/
def stripCodes (l : List Nat) : List Nat :=
  ((l.dropWhile pyIsSpace).reverse.dropWhile pyIsSpace).reverse

/-- Value of one hexadecimal digit, if it is one. -/
def hexVal (c : Nat) : Option Nat :=
  if 48 ≤ c ∧ c ≤ 57 then some (c - 48)
  else if 65 ≤ c ∧ c ≤ 70 then some (c - 55)
  else if 97 ≤ c ∧ c ≤ 102 then some (c - 87)
  else none

/-- The string scanner of `json.loads(f'"{value}"')` in strict mode, applied
to the characters of `value`: an unescaped `"` closes the string early and
leaves trailing data (an error), a raw control character below 0x20 is an
error, `\"`, `\\`, `\/`, `\b`, `\f`, `\n`, `\r`, `\t` and `\uXXXX` decode,
any other escape is an error, and a `\uXXXX` high surrogate immediately
followed by a `\uXXXX` low surrogate combines into one code point.  The
fuel argument starts at the list length and dominates the recursion depth,
since every step consumes at least one character. -/
def jsonUnescapeGo : Nat → List Nat → Option (List Nat)
  | _, [] => some []
  | 0, _ :: _ => none
  | _ + 1, 34 :: _ => none
  | fuel + 1, 92 :: 34 :: t => (jsonUnescapeGo fuel t).map (fun r => 34 :: r)
  | fuel + 1, 92 :: 92 :: t => (jsonUnescapeGo fuel t).map (fun r => 92 :: r)
  | fuel + 1, 92 :: 47 :: t => (jsonUnescapeGo fuel t).map (fun r => 47 :: r)
  | fuel + 1, 92 :: 98 :: t => (jsonUnescapeGo fuel t).map (fun r => 8 :: r)
  | fuel + 1, 92 :: 102 :: t => (jsonUnescapeGo fuel t).map (fun r => 12 :: r)
  | fuel + 1, 92 :: 110 :: t => (jsonUnescapeGo fuel t).map (fun r => 10 :: r)
  | fuel + 1, 92 :: 114 :: t => (jsonUnescapeGo fuel t).map (fun r => 13 :: r)
  | fuel + 1, 92 :: 116 :: t => (jsonUnescapeGo fuel t).map (fun r => 9 :: r)
  | fuel + 1, 92 :: 117 :: a :: b :: c :: d :: t =>
    match hexVal a, hexVal b, hexVal c, hexVal d with
    | some ha, some hb, some hc, some hd =>
      let code := ((ha * 16 + hb) * 16 + hc) * 16 + hd
      if 0xD800 ≤ code ∧ code ≤ 0xDBFF then
        match t with
        | 92 :: 117 :: e :: f :: g :: h :: t2 =>
          match hexVal e, hexVal f, hexVal g, hexVal h with
          | some he, some hf, some hg, some hh =>
            let code2 := ((he * 16 + hf) * 16 + hg) * 16 + hh
            if 0xDC00 ≤ code2 ∧ code2 ≤ 0xDFFF then
              (jsonUnescapeGo fuel t2).map
                (fun r => (0x10000 + (code - 0xD800) * 0x400 + (code2 - 0xDC00)) :: r)
            else (jsonUnescapeGo fuel t).map (fun r => code :: r)
          | _, _, _, _ => (jsonUnescapeGo fuel t).map (fun r => code :: r)
        | _ => (jsonUnescapeGo fuel t).map (fun r => code :: r)
      else (jsonUnescapeGo fuel t).map (fun r => code :: r)
    | _, _, _, _ => none
  | _ + 1, 92 :: _ => none
  | fuel + 1, ch :: t =>
    if ch < 32 then none else (jsonUnescapeGo fuel t).map (fun r => ch :: r)

/-- The `try: decoded = json.loads(f'"{value}"') …` attempt; `none` models
the swallowed exception (the original value is then kept). -/
def jsonUnescape (l : List Nat) : Option (List Nat) :=
  jsonUnescapeGo l.length l

/-- `value.replace("\\/", "/")`: left-to-right, non-overlapping. -/
def replaceBackslashSlash : List Nat → List Nat
  | 92 :: 47 :: t => 47 :: replaceBackslashSlash t
  | ch :: t => ch :: replaceBackslashSlash t
  | [] => []

/-- `re.sub(r"\\u([0-9a-fA-F]{4})", lambda m: chr(int(m.group(1), 16)), value)`:
scan left to right; a literal `\uXXXX` with four hex digits becomes the code
point, anything else is copied (a match can only start at a backslash, so
after a failed match at `\u` the scan may resume after the `u`). -/
def substUnicodeEsc : List Nat → List Nat
  | 92 :: 117 :: a :: b :: c :: d :: t =>
    match hexVal a, hexVal b, hexVal c, hexVal d with
    | some ha, some hb, some hc, some hd =>
      (((ha * 16 + hb) * 16 + hc) * 16 + hd) :: substUnicodeEsc t
    | _, _, _, _ => 92 :: 117 :: substUnicodeEsc (a :: b :: c :: d :: t)
  | ch :: t => ch :: substUnicodeEsc t
  | [] => []

/-- `url.find(':')`: the characters before the first colon, if any colon
exists. -/
def beforeColon : List Nat → Option (List Nat)
  | [] => none
  | 58 :: _ => some []
  | c :: t => (beforeColon t).map (fun r => c :: r)

/-- ASCII letter. -/
def isAsciiAlpha (c : Nat) : Bool := (65 ≤ c && c ≤ 90) || (97 ≤ c && c ≤ 122)

/-- Member of `urllib.parse.scheme_chars`. -/
def isSchemeChar (c : Nat) : Bool :=
  isAsciiAlpha c || (48 ≤ c && c ≤ 57) || c = 43 || c = 45 || c = 46

/-- ASCII lowercasing, as `str.lower()` acts on scheme characters. -/
def lowerCode (c : Nat) : Nat := if 65 ≤ c ∧ c ≤ 90 then c + 32 else c

/-- Member of `urllib.parse._WHATWG_C0_CONTROL_OR_SPACE`: the C0 control
characters and the space. -/
def isC0ControlOrSpace (c : Nat) : Bool := c ≤ 32

/-- Member of `urllib.parse._UNSAFE_URL_BYTES_TO_REMOVE`: tab, CR, LF. -/
def isUnsafeUrlByte (c : Nat) : Bool := c == 9 || c == 13 || c == 10

/-- The sanitization `urlsplit` applies to the URL before parsing it:
`url.lstrip(_WHATWG_C0_CONTROL_OR_SPACE)`, then
`url.replace(b, "")` for each of `"\t"`, `"\r"`, `"\n"`. -/
def urlSanitized (l : List Nat) : List Nat :=
  (l.dropWhile isC0ControlOrSpace).filter (fun c => !(isUnsafeUrlByte c))

/-- `urllib.parse.urlparse(value).scheme`: `urlsplit` first sanitizes the
URL (drop leading C0 controls and spaces, delete every tab, CR and LF) and
then takes the lowercased prefix before the first colon when that prefix is
non-empty, starts with an ASCII letter and consists of scheme characters;
the empty scheme otherwise. -/
def urlScheme (l : List Nat) : List Nat :=
  match beforeColon (urlSanitized l) with
  | none => []
  | some pre =>
    match pre with
    | [] => []
    | c0 :: _ =>
      if isAsciiAlpha c0 && pre.all isSchemeChar then pre.map lowerCode else []

/-- Code points of `"https:"`, prepended to protocol-relative URLs. -/
def httpsCodes : List Nat := strCodes "https:"

/-- The value `_normalize_media_url` has built right before the
protocol-relative upgrade and the scheme check: strip, attempted JSON string
decode (original kept on error), `"\\/"` replacement, `\uXXXX`
substitution. -/
def normalizedCandidate (raw : List Nat) : List Nat :=
  let v := stripCodes raw
  let v := (jsonUnescape v).getD v
  let v := replaceBackslashSlash v
  substUnicodeEsc v

/-- `ytdlp_service.py` lines 106–128, `_normalize_media_url` on a string
argument (`not raw` rejects the empty string; non-string arguments are
outside this embedding). -/
def normalizeMediaUrl (raw : List Nat) : Option (List Nat) :=
  if raw = [] then none
  else
    let v := normalizedCandidate raw
    if v = [] then none
    else
      let v2 := if v.take 2 = [47, 47] then httpsCodes ++ v else v
      if urlScheme v2 = strCodes "http" ∨ urlScheme v2 = strCodes "https" then
        some v2
      else none

/-! ## Claims -/

/-- C3: channel-level aggregation over a video list excludes videos with a
null view count from median and top-video computation while they contribute
0 to the view sum (and leave the average untouched); the average is the
integer-truncated mean; for an even count of non-null views the median is
the integer-truncated average of the two central sorted values; concretely,
for view counts [10,20,30,40] median=25, top=40, avg=25, and for [10,20,30]
median=20. -/
theorem C3_aggregation :
    (∀ (videos : List Video) (v : Video), v.view_count = none →
      (aggregateForChannel (videos ++ [v])).total_views = (aggregateForChannel videos).total_views ∧
      (aggregateForChannel (videos ++ [v])).avg_views = (aggregateForChannel videos).avg_views ∧
      (aggregateForChannel (videos ++ [v])).median_views = (aggregateForChannel videos).median_views ∧
      (aggregateForChannel (videos ++ [v])).top_video_views = (aggregateForChannel videos).top_video_views) ∧
    (∀ (videos : List Video) (vs : List Int),
      vs = List.insertionSort (· ≤ ·) (videos.filterMap (fun v => v.view_count)) →
      vs.length % 2 = 0 → vs ≠ [] →
      (aggregateForChannel videos).median_views =
        Int.tdiv (vs.getD (vs.length / 2 - 1) 0 + vs.getD (vs.length / 2) 0) 2) ∧
    ((aggregateForChannel [vidWithViews (some 10), vidWithViews (some 20),
        vidWithViews (some 30), vidWithViews (some 40)]).median_views = 25 ∧
     (aggregateForChannel [vidWithViews (some 10), vidWithViews (some 20),
        vidWithViews (some 30), vidWithViews (some 40)]).top_video_views = 40 ∧
     (aggregateForChannel [vidWithViews (some 10), vidWithViews (some 20),
        vidWithViews (some 30), vidWithViews (some 40)]).avg_views = 25 ∧
     (aggregateForChannel [vidWithViews (some 10), vidWithViews (some 20),
        vidWithViews (some 30)]).median_views = 20 ∧
     (aggregateForChannel [vidWithViews (some 10), vidWithViews (some 20),
        vidWithViews (some 31)]).avg_views = 20 ∧
     viewStats [10, 20, 30, 40] = (25, 25, 40) ∧
     viewStats [10, 20, 30] = (20, 20, 30)) := by
  refine ⟨?_, ?_, ?_⟩
  · intro videos v hv
    simp [aggregateForChannel, hv, List.filterMap_append, List.map_append]
  · intro videos vs hvs heven hne
    have hlen : vs.length % 2 = 1 → False := by omega
    simp only [aggregateForChannel, ← hvs]
    have h0 : vs.length ≠ 0 := fun h => hne (List.eq_nil_of_length_eq_zero h)
    simp [h0, fun h => hlen h]
    omega
  · refine ⟨by decide, by decide, by decide, by decide, by decide, by decide, by decide⟩

/-- Witness for C3: the general conjuncts applied at concrete inputs. -/
theorem C3_aggregation_witness :
    ((aggregateForChannel ([vidWithViews (some 5)] ++ [vidWithViews none])).total_views =
        (aggregateForChannel [vidWithViews (some 5)]).total_views ∧
      (aggregateForChannel ([vidWithViews (some 5)] ++ [vidWithViews none])).avg_views =
        (aggregateForChannel [vidWithViews (some 5)]).avg_views ∧
      (aggregateForChannel ([vidWithViews (some 5)] ++ [vidWithViews none])).median_views =
        (aggregateForChannel [vidWithViews (some 5)]).median_views ∧
      (aggregateForChannel ([vidWithViews (some 5)] ++ [vidWithViews none])).top_video_views =
        (aggregateForChannel [vidWithViews (some 5)]).top_video_views) ∧
    (aggregateForChannel [vidWithViews (some 10), vidWithViews (some 20)]).median_views = 15 := by
  constructor
  · exact C3_aggregation.1 [vidWithViews (some 5)] (vidWithViews none) rfl
  · have h := C3_aggregation.2.1 [vidWithViews (some 10), vidWithViews (some 20)]
      [10, 20] (by decide) (by decide) (by decide)
    simpa using h

/-- C7: a non-forced refresh of a channel whose `last_refreshed_at` is set
and less than the configured interval in the past terminates immediately as
skipped-success — the state is unchanged and the result does not depend on
the fetch — while with `force=true` the entry guard is off and the refresh
proceeds to the fetch path; concretely, a channel refreshed 1 hour ago with
a 6-hour interval is skipped when `force=false` and not when `force=true`. -/
theorem C7_cache_skip :
    (∀ (db : DBState) (now interval t : Int) (fetch : FetchOutcome)
        (avatar : Option String) (failAfter : Option (Nat × String)),
      db.channel.last_refreshed_at = some t → now - t < interval * 3600 →
      refreshChannel db now interval false fetch avatar failAfter = ⟨db, true, msgSkippedCache⟩) ∧
    (∀ (db : DBState) (now interval : Int) (fetch : FetchOutcome)
        (avatar : Option String) (failAfter : Option (Nat × String)),
      refreshChannel db now interval true fetch avatar failAfter =
        refreshFetched db now fetch avatar failAfter) ∧
    (∀ (ch : Channel) (now : Int), ch.last_refreshed_at = some (now - 3600) →
      isCacheValid ch now 6 false = true ∧ isCacheValid ch now 6 true = false) := by
  refine ⟨?_, ?_, ?_⟩
  · intro db now interval t fetch avatar failAfter ht hlt
    simp [refreshChannel, isCacheValid, ht, hlt]
  · intro db now interval fetch avatar failAfter
    simp [refreshChannel, isCacheValid]
  · intro ch now ht
    constructor
    · simp [isCacheValid, ht]
    · simp [isCacheValid]

/-- Witness for C7: a concrete channel refreshed one hour before `now` with
the default 6-hour interval. -/
theorem C7_cache_skip_witness :
    (refreshChannel ⟨mkChannel (some 96400), [], [], 0⟩ 100000 6 false
        (.fetchErr "boom") none none =
      ⟨⟨mkChannel (some 96400), [], [], 0⟩, true, msgSkippedCache⟩) ∧
    (isCacheValid (mkChannel (some 96400)) 100000 6 false = true ∧
     isCacheValid (mkChannel (some 96400)) 100000 6 true = false) := by
  constructor
  · exact C7_cache_skip.1 _ 100000 6 96400 (.fetchErr "boom") none none rfl (by decide)
  · exact C7_cache_skip.2.2 _ 100000 (by decide)

/-- C1: for a channel that has at least one stored video, a (non-skipped)
refresh whose fetch returns zero videos is reported as failed, records the
kept-old message as the channel's error, and leaves every stored video row
of the whole table untouched, whatever the persist-failure oracle would
have done. -/
theorem C1_empty_fetch_guard (db : DBState) (now interval : Int) (force : Bool)
    (payload : ChannelPayload) (avatar : Option String)
    (failAfter : Option (Nat × String))
    (hcache : isCacheValid db.channel now interval force = false)
    (hstored : db.videos.filter (fun v => v.channel_id == db.channel.id) ≠ [])
    (hempty : payload.videos = []) :
    (refreshChannel db now interval force (.ok payload) avatar failAfter).ok = false ∧
    (refreshChannel db now interval force (.ok payload) avatar failAfter).msg = msgRefreshKeptOld ∧
    (refreshChannel db now interval force (.ok payload) avatar failAfter).db.videos = db.videos ∧
    (refreshChannel db now interval force (.ok payload) avatar failAfter).db.snapshots = db.snapshots ∧
    (refreshChannel db now interval force (.ok payload) avatar failAfter).db.channel =
      { db.channel with last_error := some msgRefreshKeptOld } := by
  simp [refreshChannel, hcache, refreshFetched, hstored, hempty, commitLastError]

/-- Witness for C1: a channel with one stored video, an empty payload. -/
theorem C1_empty_fetch_guard_witness :
    (refreshChannel ⟨mkChannel none, [vidWithViews (some 7)], [], 0⟩ 0 6 false
        (.ok ⟨"c", "u", none, none, []⟩) none (some (5, "boom"))).ok = false ∧
    (refreshChannel ⟨mkChannel none, [vidWithViews (some 7)], [], 0⟩ 0 6 false
        (.ok ⟨"c", "u", none, none, []⟩) none (some (5, "boom"))).msg = msgRefreshKeptOld ∧
    (refreshChannel ⟨mkChannel none, [vidWithViews (some 7)], [], 0⟩ 0 6 false
        (.ok ⟨"c", "u", none, none, []⟩) none (some (5, "boom"))).db.videos = [vidWithViews (some 7)] ∧
    (refreshChannel ⟨mkChannel none, [vidWithViews (some 7)], [], 0⟩ 0 6 false
        (.ok ⟨"c", "u", none, none, []⟩) none (some (5, "boom"))).db.snapshots = ([] : List ChannelSnapshot) ∧
    (refreshChannel ⟨mkChannel none, [vidWithViews (some 7)], [], 0⟩ 0 6 false
        (.ok ⟨"c", "u", none, none, []⟩) none (some (5, "boom"))).db.channel =
      { mkChannel none with last_error := some msgRefreshKeptOld } :=
  C1_empty_fetch_guard ⟨mkChannel none, [vidWithViews (some 7)], [], 0⟩ 0 6 false
    ⟨"c", "u", none, none, []⟩ none (some (5, "boom")) (by decide) (by decide) rfl

/-- C6: an exception raised anywhere inside the persisting phase (after a
successful, non-empty-guarded fetch) rolls the transaction back fully — the
committed video rows, snapshots and channel fields are those from before
the refresh — records `Unexpected refresh error: …` as the channel's error,
and reports failure. -/
theorem C6_persist_rollback (db : DBState) (now interval : Int) (force : Bool)
    (payload : ChannelPayload) (avatar : Option String) (k : Nat) (exc : String)
    (hcache : isCacheValid db.channel now interval force = false)
    (hguard : db.videos.filter (fun v => v.channel_id == db.channel.id) = [] ∨
      payload.videos ≠ []) :
    (refreshChannel db now interval force (.ok payload) avatar (some (k, exc))).ok = false ∧
    (refreshChannel db now interval force (.ok payload) avatar (some (k, exc))).msg =
      "Unexpected refresh error: " ++ exc ∧
    (refreshChannel db now interval force (.ok payload) avatar (some (k, exc))).db.videos =
      db.videos ∧
    (refreshChannel db now interval force (.ok payload) avatar (some (k, exc))).db.snapshots =
      db.snapshots ∧
    (refreshChannel db now interval force (.ok payload) avatar (some (k, exc))).db.channel =
      { db.channel with last_error := some ("Unexpected refresh error: " ++ exc) } := by
  have hg : ¬((∃ x ∈ db.videos, x.channel_id = db.channel.id) ∧ payload.videos = []) := by
    rintro ⟨⟨x, hx, hcid⟩, hpay⟩
    rcases hguard with h | h
    · have hmem : x ∈ db.videos.filter (fun v => v.channel_id == db.channel.id) :=
        List.mem_filter.mpr ⟨hx, by simp [hcid]⟩
      rw [h] at hmem
      exact absurd hmem (List.not_mem_nil x)
    · exact h hpay
  simp [refreshChannel, hcache, refreshFetched, hg, commitLastError]

/-- Witness for C6: a channel with one stored video, a one-video payload,
an exception after the delete step. -/
theorem C6_persist_rollback_witness :
    (refreshChannel ⟨mkChannel none, [vidWithViews (some 7)], [], 0⟩ 0 6 false
        (.ok ⟨"c", "u", none, none, [⟨"t", "u", none, none, some 9, none, none, none⟩]⟩)
        none (some (2, "disk full"))).ok = false ∧
    (refreshChannel ⟨mkChannel none, [vidWithViews (some 7)], [], 0⟩ 0 6 false
        (.ok ⟨"c", "u", none, none, [⟨"t", "u", none, none, some 9, none, none, none⟩]⟩)
        none (some (2, "disk full"))).msg = "Unexpected refresh error: disk full" ∧
    (refreshChannel ⟨mkChannel none, [vidWithViews (some 7)], [], 0⟩ 0 6 false
        (.ok ⟨"c", "u", none, none, [⟨"t", "u", none, none, some 9, none, none, none⟩]⟩)
        none (some (2, "disk full"))).db.videos = [vidWithViews (some 7)] ∧
    (refreshChannel ⟨mkChannel none, [vidWithViews (some 7)], [], 0⟩ 0 6 false
        (.ok ⟨"c", "u", none, none, [⟨"t", "u", none, none, some 9, none, none, none⟩]⟩)
        none (some (2, "disk full"))).db.snapshots = ([] : List ChannelSnapshot) ∧
    (refreshChannel ⟨mkChannel none, [vidWithViews (some 7)], [], 0⟩ 0 6 false
        (.ok ⟨"c", "u", none, none, [⟨"t", "u", none, none, some 9, none, none, none⟩]⟩)
        none (some (2, "disk full"))).db.channel =
      { mkChannel none with last_error := some "Unexpected refresh error: disk full" } :=
  C6_persist_rollback ⟨mkChannel none, [vidWithViews (some 7)], [], 0⟩ 0 6 false
    ⟨"c", "u", none, none, [⟨"t", "u", none, none, some 9, none, none, none⟩]⟩
    none 2 "disk full" (by decide) (Or.inr (by decide))

/-- C2 counterexample: running a (forced) refresh of a channel whose stored
video at URL `u` has `view_count = 500` against a fresh payload whose video
at the same URL has a null view count stores a merged row with
`view_count = some 500` and `view_delta = some 0` — a **set** delta of
zero, not the unset delta the claim predicts, because the code compares the
merged (backfilled) value with the old one. -/
theorem C2_counterexample :
    ((refreshChannel ⟨mkChannel none, [vidWithViews (some 500)], [], 0⟩ 0 6 true
        (.ok ⟨"c", "u", none, none, [⟨"t", "u", none, none, none, none, none, none⟩]⟩)
        none none).db.videos.map (fun v => (v.view_count, v.view_delta)) =
      [(some 500, some 0)]) ∧
    ¬((refreshChannel ⟨mkChannel none, [vidWithViews (some 500)], [], 0⟩ 0 6 true
        (.ok ⟨"c", "u", none, none, [⟨"t", "u", none, none, none, none, none, none⟩]⟩)
        none none).db.videos.map (fun v => (v.view_count, v.view_delta)) =
      [(some 500, none)]) := by decide

/-- C2 (amended): for a fresh video matched by URL to an existing video,
each per-video delta (view, like, comment) is computed exactly when both
the old stored value and the **merged** (backfilled) new value are
non-null; since backfilling makes the merged value equal the old one when
the fetched value is null, reconciling a fresh video with null view_count
against an existing record with view_count=500 yields merged
view_count=500 and view_delta=0 (set, not unset). -/
theorem C2_reconcile_delta (old? : Option Video) (cid : Int) (item : VideoPayload) :
    ((mergedVideo old? cid item).view_delta =
      deltaWhenBothKnown (old?.bind (fun o => o.view_count))
        (mergedVideo old? cid item).view_count) ∧
    ((mergedVideo old? cid item).like_delta =
      deltaWhenBothKnown (old?.bind (fun o => o.like_count))
        (mergedVideo old? cid item).like_count) ∧
    ((mergedVideo old? cid item).comment_delta =
      deltaWhenBothKnown (old?.bind (fun o => o.comment_count))
        (mergedVideo old? cid item).comment_count) ∧
    (∀ (o : Video) (v : Int), old? = some o → o.view_count = some v →
      item.view_count = none →
      (mergedVideo old? cid item).view_count = some v ∧
      (mergedVideo old? cid item).view_delta = some 0) := by
  refine ⟨?_, ?_, ?_, ?_⟩
  · cases old? with
    | none => simp [mergedVideo, deltaWhenBothKnown]
    | some o =>
      cases hov : o.view_count <;> cases hiv : item.view_count <;>
        simp [mergedVideo, deltaWhenBothKnown, hov, hiv]
  · cases old? with
    | none => simp [mergedVideo, deltaWhenBothKnown]
    | some o =>
      cases hov : o.like_count <;> cases hiv : item.like_count <;>
        simp [mergedVideo, deltaWhenBothKnown, hov, hiv]
  · cases old? with
    | none => simp [mergedVideo, deltaWhenBothKnown]
    | some o =>
      cases hov : o.comment_count <;> cases hiv : item.comment_count <;>
        simp [mergedVideo, deltaWhenBothKnown, hov, hiv]
  · intro o v ho hov hitem
    subst ho
    constructor <;> simp [mergedVideo, hov, hitem]

/-- Witness for C2: the concrete null-against-500 reconciliation. -/
theorem C2_reconcile_delta_witness :
    (mergedVideo (some (vidWithViews (some 500))) 1
        ⟨"t", "u", none, none, none, none, none, none⟩).view_count = some 500 ∧
    (mergedVideo (some (vidWithViews (some 500))) 1
        ⟨"t", "u", none, none, none, none, none, none⟩).view_delta = some 0 :=
  (C2_reconcile_delta (some (vidWithViews (some 500))) 1
    ⟨"t", "u", none, none, none, none, none, none⟩).2.2.2
    (vidWithViews (some 500)) 500 rfl rfl rfl

/-- The `(captured_at, id)`-maximum found by `latestStep` dominates the
`captured_at` of every list element and of the accumulator. -/
theorem foldl_latestStep_le (l : List ChannelSnapshot) :
    ∀ (acc : Option ChannelSnapshot) (b : ChannelSnapshot),
      l.foldl latestStep acc = some b →
      (∀ s ∈ l, s.captured_at ≤ b.captured_at) ∧
      (∀ a, acc = some a → a.captured_at ≤ b.captured_at) := by
  induction l with
  | nil =>
    intro acc b h
    simp only [List.foldl_nil] at h
    exact ⟨by simp, fun a ha => by rw [ha] at h; cases h; exact le_refl _⟩
  | cons s t ih =>
    intro acc b h
    simp only [List.foldl_cons] at h
    obtain ⟨ht, hacc⟩ := ih (latestStep acc s) b h
    have hs : s.captured_at ≤ b.captured_at := by
      cases acc with
      | none => exact hacc s rfl
      | some a =>
        by_cases hc : a.captured_at < s.captured_at ∨
            (a.captured_at = s.captured_at ∧ a.id < s.id)
        · exact hacc s (by simp [latestStep, hc])
        · have ha : a.captured_at ≤ b.captured_at := hacc a (by simp [latestStep, hc])
          have : ¬ a.captured_at < s.captured_at := fun hlt => hc (Or.inl hlt)
          omega
    refine ⟨?_, ?_⟩
    · intro x hx
      rcases List.mem_cons.mp hx with rfl | hx'
      · exact hs
      · exact ht x hx'
    · intro a ha
      cases acc with
      | none => cases ha
      | some a' =>
        cases ha
        by_cases hc : a.captured_at < s.captured_at ∨
            (a.captured_at = s.captured_at ∧ a.id < s.id)
        · have : ¬ s.captured_at < a.captured_at := by
            rcases hc with h1 | ⟨h1, _⟩ <;> omega
          have hsb := hacc s (by simp [latestStep, hc])
          omega
        · exact hacc a (by simp [latestStep, hc])

/-- A fold of `latestStep` starting from a present accumulator stays
present; hence `latestSnapshotFor` is `none` only on an empty selection. -/
theorem foldl_latestStep_isSome (l : List ChannelSnapshot) :
    ∀ (a : ChannelSnapshot), (l.foldl latestStep (some a)).isSome := by
  induction l with
  | nil => intro a; simp
  | cons s t ih =>
    intro a
    simp only [List.foldl_cons]
    by_cases hc : a.captured_at < s.captured_at ∨
        (a.captured_at = s.captured_at ∧ a.id < s.id)
    · simpa [latestStep, hc] using ih s
    · simpa [latestStep, hc] using ih a

/-- If no snapshot of `cid` is stored, `latestSnapshotFor` finds none, and
conversely. -/
theorem latestSnapshotFor_eq_none (snaps : List ChannelSnapshot) (cid : Int) :
    latestSnapshotFor snaps cid = none ↔
      snaps.filter (fun s => s.channel_id == cid) = [] := by
  constructor
  · intro h
    cases hf : snaps.filter (fun s => s.channel_id == cid) with
    | nil => rfl
    | cons s t =>
      rw [latestSnapshotFor, hf] at h
      simp only [List.foldl_cons, latestStep] at h
      have := foldl_latestStep_isSome t s
      rw [h] at this
      cases this
  · intro h
    rw [latestSnapshotFor, h]
    rfl

/-- C4: recording a snapshot is a no-op whenever the channel's latest
stored snapshot is younger than 24 hours and otherwise inserts exactly one
new snapshot row; recording twice within 24 hours starting from a channel
with no snapshots stores exactly one; and one recording preserves the
invariant that any two stored snapshots of the channel are at least 24
hours apart. -/
theorem C4_snapshot_throttle :
    (∀ (snaps : List ChannelSnapshot) (nextId cid tv tl tc : Int)
        (sub : Option Int) (now : Int) (l : ChannelSnapshot),
      latestSnapshotFor snaps cid = some l → now - l.captured_at < 86400 →
      saveChannelSnapshot snaps nextId cid tv tl tc sub now = (snaps, nextId)) ∧
    (∀ (snaps : List ChannelSnapshot) (nextId cid tv tl tc : Int)
        (sub : Option Int) (now : Int),
      (latestSnapshotFor snaps cid = none ∨
        (∃ l, latestSnapshotFor snaps cid = some l ∧ 86400 ≤ now - l.captured_at)) →
      (saveChannelSnapshot snaps nextId cid tv tl tc sub now).1 =
        snaps ++ [⟨nextId, cid, now, tv, tl, tc, sub⟩]) ∧
    (∀ (snaps : List ChannelSnapshot) (nextId cid tv tl tc : Int)
        (sub : Option Int) (t1 tv2 tl2 tc2 : Int) (sub2 : Option Int) (t2 : Int),
      snaps.filter (fun s => s.channel_id == cid) = [] → t2 - t1 < 86400 →
      saveChannelSnapshot (saveChannelSnapshot snaps nextId cid tv tl tc sub t1).1
          (saveChannelSnapshot snaps nextId cid tv tl tc sub t1).2
          cid tv2 tl2 tc2 sub2 t2 =
        saveChannelSnapshot snaps nextId cid tv tl tc sub t1 ∧
      ((saveChannelSnapshot snaps nextId cid tv tl tc sub t1).1.filter
          (fun s => s.channel_id == cid)).length = 1) ∧
    (∀ (snaps : List ChannelSnapshot) (nextId cid tv tl tc : Int)
        (sub : Option Int) (now : Int),
      SnapshotsSeparated snaps cid →
      SnapshotsSeparated (saveChannelSnapshot snaps nextId cid tv tl tc sub now).1 cid) := by
  refine ⟨?_, ?_, ?_, ?_⟩
  · intro snaps nextId cid tv tl tc sub now l hl hlt
    simp [saveChannelSnapshot, hl, hlt]
  · intro snaps nextId cid tv tl tc sub now h
    rcases h with h | ⟨l, hl, hge⟩
    · simp [saveChannelSnapshot, h]
    · have hne : ¬ now - l.captured_at < 86400 := by omega
      simp [saveChannelSnapshot, hl, hne]
  · intro snaps nextId cid tv tl tc sub t1 tv2 tl2 tc2 sub2 t2 hfil hlt
    have hnone : latestSnapshotFor snaps cid = none :=
      (latestSnapshotFor_eq_none snaps cid).mpr hfil
    have hsave1 : saveChannelSnapshot snaps nextId cid tv tl tc sub t1 =
        (snaps ++ [⟨nextId, cid, t1, tv, tl, tc, sub⟩], nextId + 1) := by
      simp [saveChannelSnapshot, hnone]
    rw [hsave1]
    have hfil2 : (snaps ++ [(⟨nextId, cid, t1, tv, tl, tc, sub⟩ : ChannelSnapshot)]).filter
        (fun s => s.channel_id == cid) = [⟨nextId, cid, t1, tv, tl, tc, sub⟩] := by
      simp [List.filter_append, hfil]
    have hlatest2 : latestSnapshotFor
        (snaps ++ [(⟨nextId, cid, t1, tv, tl, tc, sub⟩ : ChannelSnapshot)]) cid =
        some ⟨nextId, cid, t1, tv, tl, tc, sub⟩ := by
      rw [latestSnapshotFor, hfil2]; rfl
    constructor
    · simp [saveChannelSnapshot, hlatest2, hlt]
    · rw [hfil2]; rfl
  · intro snaps nextId cid tv tl tc sub now hsep
    cases hl : latestSnapshotFor snaps cid with
    | none =>
      have hfil : snaps.filter (fun s => s.channel_id == cid) = [] :=
        (latestSnapshotFor_eq_none snaps cid).mp hl
      simp only [saveChannelSnapshot, hl]
      unfold SnapshotsSeparated
      rw [List.filter_append, hfil]
      simp
    | some l =>
      by_cases hlt : now - l.captured_at < 86400
      · simp only [saveChannelSnapshot, hl]
        rw [if_pos (by omega)]
        exact hsep
      · have hmax : ∀ s ∈ snaps.filter (fun s => s.channel_id == cid),
            s.captured_at ≤ l.captured_at :=
          (foldl_latestStep_le _ none l hl).1
        simp only [saveChannelSnapshot, hl]
        rw [if_neg (by omega)]
        unfold SnapshotsSeparated
        rw [List.filter_append]
        rw [List.pairwise_append]
        refine ⟨hsep, by simp, ?_⟩
        intro a ha b hb
        have hb' : b = (⟨nextId, cid, now, tv, tl, tc, sub⟩ : ChannelSnapshot) := by
          simpa using hb
        subst hb'
        have := hmax a ha
        left
        simp only []
        omega

/-- The worker loop preserves `refreshed + skipped + failed = done`. -/
theorem runJobGo_sum (cancel : Nat → Bool) (total : Nat)
    (outcomes : List (Bool × String)) :
    ∀ done r s f, r + s + f = done →
      (runJobGo cancel total outcomes done r s f).refreshed +
        (runJobGo cancel total outcomes done r s f).skipped +
        (runJobGo cancel total outcomes done r s f).failed =
        (runJobGo cancel total outcomes done r s f).done := by
  induction outcomes with
  | nil =>
    intro done r s f h
    simpa [runJobGo] using h
  | cons o rest ih =>
    intro done r s f h
    rcases o with ⟨ok, text⟩
    simp only [runJobGo]
    split
    · exact h
    · split
      · exact ih _ _ _ _ (by omega)
      · split
        · exact ih _ _ _ _ (by omega)
        · exact ih _ _ _ _ (by omega)

/-- If the cancel flag is first observed at the boundary before channel
`done + k` (with `k` channels still ahead), the worker finalizes there:
cancelled, `done` advanced by exactly the `k` completed channels, and the
counters grown by the buckets of those `k` outcomes. -/
theorem runJobGo_first_cancel (cancel : Nat → Bool) (total : Nat) :
    ∀ (outcomes : List (Bool × String)) (k done r s f : Nat),
      cancel (done + k) = true →
      (∀ j, j < k → cancel (done + j) = false) →
      k < outcomes.length →
      runJobGo cancel total outcomes done r s f =
        ⟨true, true, done + k, total,
          r + countRefreshed (outcomes.take k),
          s + countSkipped (outcomes.take k),
          f + countFailed (outcomes.take k)⟩ := by
  intro outcomes
  induction outcomes with
  | nil =>
    intro k done r s f hk hbef hlen
    simp at hlen
  | cons o rest ih =>
    intro k done r s f hk hbef hlen
    rcases o with ⟨ok, text⟩
    cases k with
    | zero =>
      have hc : cancel done = true := by simpa using hk
      simp [runJobGo, hc, countRefreshed, countSkipped, countFailed]
    | succ k' =>
      have hc : cancel done = false := hbef 0 (Nat.succ_pos k')
      have hk' : cancel (done + 1 + k') = true := by
        have : done + 1 + k' = done + (k' + 1) := by omega
        rw [this]; exact hk
      have hbef' : ∀ j, j < k' → cancel (done + 1 + j) = false := by
        intro j hj
        have : done + 1 + j = done + (j + 1) := by omega
        rw [this]; exact hbef (j + 1) (by omega)
      have hlen' : k' < rest.length := by simpa using hlen
      simp only [runJobGo, hc, Bool.false_eq_true, if_false]
      split
      · rename_i hsk
        obtain ⟨hok, htext⟩ := hsk
        subst hok; subst htext
        rw [ih k' (done + 1) r (s + 1) f hk' hbef' hlen']
        simp only [List.take_succ_cons, JobFinal.mk.injEq]
        simp [countRefreshed, countSkipped, countFailed]
        omega
      · split
        · rename_i hnsk hok
          have htext : ¬ text = msgSkippedCache := fun ht => hnsk ⟨hok, ht⟩
          subst hok
          rw [ih k' (done + 1) (r + 1) s f hk' hbef' hlen']
          simp only [List.take_succ_cons, JobFinal.mk.injEq]
          simp [countRefreshed, countSkipped, countFailed, htext]
          omega
        · rename_i hnsk hnok
          have hok : ok = false := by
            cases ok
            · rfl
            · exact absurd rfl hnok
          subst hok
          rw [ih k' (done + 1) r s (f + 1) hk' hbef' hlen']
          simp only [List.take_succ_cons, JobFinal.mk.injEq]
          simp [countRefreshed, countSkipped, countFailed]
          omega

/-- Witness for C4: two recordings one hour apart on an initially
snapshot-free channel leave exactly one stored snapshot. -/
theorem C4_snapshot_throttle_witness :
    saveChannelSnapshot (saveChannelSnapshot [] 0 1 10 2 3 none 0).1
        (saveChannelSnapshot [] 0 1 10 2 3 none 0).2 1 11 2 3 none 3600 =
      saveChannelSnapshot [] 0 1 10 2 3 none 0 ∧
    ((saveChannelSnapshot [] 0 1 10 2 3 none 0).1.filter
        (fun s => s.channel_id == 1)).length = 1 :=
  C4_snapshot_throttle.2.2.1 [] 0 1 10 2 3 none 0 11 2 3 none 3600 rfl (by decide)

/-- C5: when the cancel flag is first observed at a per-channel boundary,
the batch job finalizes with `cancelled = true`, keeps exactly the counters
accumulated over the already-completed prefix (no completed work is
undone), and always satisfies `refreshed + skipped + failed = done`; in
particular a 5-channel batch whose cancel flag is set after 2 completions
(first observed at boundary 2 or 3) ends with `done ∈ {2, 3}`. -/
theorem C5_cancel_boundary :
    (∀ (outcomes : List (Bool × String)) (cancel : Nat → Bool),
      (runRefreshAllJob outcomes cancel).refreshed +
        (runRefreshAllJob outcomes cancel).skipped +
        (runRefreshAllJob outcomes cancel).failed =
        (runRefreshAllJob outcomes cancel).done) ∧
    (∀ (outcomes : List (Bool × String)) (cancel : Nat → Bool) (k : Nat),
      cancel k = true → (∀ j, j < k → cancel j = false) → k < outcomes.length →
      runRefreshAllJob outcomes cancel =
        ⟨true, true, k, outcomes.length, countRefreshed (outcomes.take k),
          countSkipped (outcomes.take k), countFailed (outcomes.take k)⟩) ∧
    (∀ (outcomes : List (Bool × String)) (k : Nat),
      outcomes.length = 5 → (k = 2 ∨ k = 3) →
      (runRefreshAllJob outcomes (fun i => decide (k ≤ i))).cancelled = true ∧
      ((runRefreshAllJob outcomes (fun i => decide (k ≤ i))).done = 2 ∨
        (runRefreshAllJob outcomes (fun i => decide (k ≤ i))).done = 3) ∧
      (runRefreshAllJob outcomes (fun i => decide (k ≤ i))).refreshed +
        (runRefreshAllJob outcomes (fun i => decide (k ≤ i))).skipped +
        (runRefreshAllJob outcomes (fun i => decide (k ≤ i))).failed =
        (runRefreshAllJob outcomes (fun i => decide (k ≤ i))).done) := by
  have hsum : ∀ (outcomes : List (Bool × String)) (cancel : Nat → Bool),
      (runRefreshAllJob outcomes cancel).refreshed +
        (runRefreshAllJob outcomes cancel).skipped +
        (runRefreshAllJob outcomes cancel).failed =
        (runRefreshAllJob outcomes cancel).done := by
    intro outcomes cancel
    exact runJobGo_sum cancel outcomes.length outcomes 0 0 0 0 rfl
  have hfirst : ∀ (outcomes : List (Bool × String)) (cancel : Nat → Bool) (k : Nat),
      cancel k = true → (∀ j, j < k → cancel j = false) → k < outcomes.length →
      runRefreshAllJob outcomes cancel =
        ⟨true, true, k, outcomes.length, countRefreshed (outcomes.take k),
          countSkipped (outcomes.take k), countFailed (outcomes.take k)⟩ := by
    intro outcomes cancel k hk hbef hlen
    have h := runJobGo_first_cancel cancel outcomes.length outcomes k 0 0 0 0
      (by simpa using hk) (fun j hj => by simpa using hbef j hj) hlen
    simpa [runRefreshAllJob] using h
  refine ⟨hsum, hfirst, ?_⟩
  intro outcomes k hlen hk
  have hck : (fun i => decide (k ≤ i)) k = true := by simp
  have hbef : ∀ j, j < k → (fun i => decide (k ≤ i)) j = false := by
    intro j hj; simp; omega
  have hklen : k < outcomes.length := by rcases hk with rfl | rfl <;> omega
  rw [hfirst outcomes (fun i => decide (k ≤ i)) k hck hbef hklen]
  refine ⟨rfl, ?_, ?_⟩
  · rcases hk with rfl | rfl
    · exact Or.inl rfl
    · exact Or.inr rfl
  · rw [← hfirst outcomes (fun i => decide (k ≤ i)) k hck hbef hklen]
    exact hsum outcomes (fun i => decide (k ≤ i))

/-- Witness for C5: a concrete 5-channel batch with the cancel flag set
after two completions and first observed at boundary 2. -/
theorem C5_cancel_boundary_witness :
    (runRefreshAllJob [(true, msgSkippedCache), (true, "msg_refreshed_channel a 3"),
        (false, "err"), (true, "msg_refreshed_channel b 1"), (true, "msg_refreshed_channel c 2")]
        (fun i => decide (2 ≤ i))).cancelled = true ∧
    ((runRefreshAllJob [(true, msgSkippedCache), (true, "msg_refreshed_channel a 3"),
        (false, "err"), (true, "msg_refreshed_channel b 1"), (true, "msg_refreshed_channel c 2")]
        (fun i => decide (2 ≤ i))).done = 2 ∨
      (runRefreshAllJob [(true, msgSkippedCache), (true, "msg_refreshed_channel a 3"),
        (false, "err"), (true, "msg_refreshed_channel b 1"), (true, "msg_refreshed_channel c 2")]
        (fun i => decide (2 ≤ i))).done = 3) ∧
    (runRefreshAllJob [(true, msgSkippedCache), (true, "msg_refreshed_channel a 3"),
        (false, "err"), (true, "msg_refreshed_channel b 1"), (true, "msg_refreshed_channel c 2")]
        (fun i => decide (2 ≤ i))).refreshed +
      (runRefreshAllJob [(true, msgSkippedCache), (true, "msg_refreshed_channel a 3"),
        (false, "err"), (true, "msg_refreshed_channel b 1"), (true, "msg_refreshed_channel c 2")]
        (fun i => decide (2 ≤ i))).skipped +
      (runRefreshAllJob [(true, msgSkippedCache), (true, "msg_refreshed_channel a 3"),
        (false, "err"), (true, "msg_refreshed_channel b 1"), (true, "msg_refreshed_channel c 2")]
        (fun i => decide (2 ≤ i))).failed =
      (runRefreshAllJob [(true, msgSkippedCache), (true, "msg_refreshed_channel a 3"),
        (false, "err"), (true, "msg_refreshed_channel b 1"), (true, "msg_refreshed_channel c 2")]
        (fun i => decide (2 ≤ i))).done :=
  C5_cancel_boundary.2.2 [(true, msgSkippedCache), (true, "msg_refreshed_channel a 3"),
    (false, "err"), (true, "msg_refreshed_channel b 1"), (true, "msg_refreshed_channel c 2")]
    2 rfl (Or.inl rfl)

/-- C10: for every job id absent from the in-memory job table the cancel
check answers `true`; hence a batch worker whose job record was removed
after `k` completed channels (its checks returning `false` before that
point) finalizes as cancelled at the very next per-channel boundary with
the summary of the completed prefix, instead of refreshing the remaining
channels. -/
theorem C10_missing_job_cancelled :
    (∀ (jobs : List (String × JobRecord)) (jobId : String),
      jobs.lookup jobId = none → isRefreshJobCancelRequested jobs jobId = true) ∧
    (∀ (jobs : List (String × JobRecord)) (jobId : String)
        (outcomes : List (Bool × String)) (k : Nat),
      jobs.lookup jobId = none → k < outcomes.length →
      runRefreshAllJob outcomes
          (fun i => if i < k then false else isRefreshJobCancelRequested jobs jobId) =
        ⟨true, true, k, outcomes.length, countRefreshed (outcomes.take k),
          countSkipped (outcomes.take k), countFailed (outcomes.take k)⟩) := by
  have hmissing : ∀ (jobs : List (String × JobRecord)) (jobId : String),
      jobs.lookup jobId = none → isRefreshJobCancelRequested jobs jobId = true := by
    intro jobs jobId h
    simp [isRefreshJobCancelRequested, h]
  refine ⟨hmissing, ?_⟩
  intro jobs jobId outcomes k hnone hklen
  have h := runJobGo_first_cancel
    (fun i => if i < k then false else isRefreshJobCancelRequested jobs jobId)
    outcomes.length outcomes k 0 0 0 0
    (by simp [hmissing jobs jobId hnone]) (fun j hj => by simp [hj]) hklen
  simpa [runRefreshAllJob] using h

/-- Witness for C10: an empty job table, a three-channel batch whose job
record disappears after one completion. -/
theorem C10_missing_job_cancelled_witness :
    isRefreshJobCancelRequested [] "gone" = true ∧
    runRefreshAllJob [(true, "msg_refreshed_channel a 1"), (false, "err"), (true, msgSkippedCache)]
        (fun i => if i < 1 then false else isRefreshJobCancelRequested [] "gone") =
      ⟨true, true, 1, 3,
        countRefreshed ([(true, "msg_refreshed_channel a 1"), (false, "err"),
          (true, msgSkippedCache)].take 1),
        countSkipped ([(true, "msg_refreshed_channel a 1"), (false, "err"),
          (true, msgSkippedCache)].take 1),
        countFailed ([(true, "msg_refreshed_channel a 1"), (false, "err"),
          (true, msgSkippedCache)].take 1)⟩ :=
  ⟨C10_missing_job_cancelled.1 [] "gone" rfl,
   C10_missing_job_cancelled.2 [] "gone"
     [(true, "msg_refreshed_channel a 1"), (false, "err"), (true, msgSkippedCache)]
     1 rfl (by simp)⟩

/-- Every id on the cap-phase victim list belongs to some finished,
TTL-surviving job. -/
theorem mem_capDoomed_exists (kept : List (String × JobRecord)) (ovf : Nat)
    (x : String) (hx : x ∈ capDoomed kept ovf) :
    ∃ jr, jr ∈ kept ∧ jr.2.finished = true ∧ jr.1 = x := by
  rcases List.mem_map.mp hx with ⟨p, hp, hpx⟩
  have hp1 : p ∈ List.insertionSort keyLe
      ((kept.filter (fun jr => jr.2.finished)).map (fun jr => jobSortKey jr.1 jr.2)) :=
    List.mem_of_mem_take hp
  have hp2 : p ∈ (kept.filter (fun jr => jr.2.finished)).map
      (fun jr => jobSortKey jr.1 jr.2) :=
    (List.perm_insertionSort keyLe _).mem_iff.mp hp1
  rcases List.mem_map.mp hp2 with ⟨jr, hjr, hjrp⟩
  have hjr' := List.mem_filter.mp hjr
  refine ⟨jr, hjr'.1, hjr'.2, ?_⟩
  rw [← hpx, ← hjrp]
  rfl

/-- Garbage collection never invents entries: its output is a subset of the
TTL-surviving table. -/
theorem cleanup_subset_ttlKept (jobs : List (String × JobRecord)) (now : Int) :
    ∀ jr ∈ cleanupRefreshJobs jobs now, jr ∈ ttlKept jobs now := by
  intro jr h
  unfold cleanupRefreshJobs at h
  split at h
  · exact h
  · exact (List.mem_filter.mp h).1

/-- C8 (amended): garbage collection (run by the status route and the job
start route, which operate on the collected table) first purges finished
jobs older than the 24-hour TTL, and then, if the **total** number of
remaining jobs — finished and unfinished alike, not the finished count
alone — exceeds the 200-job cap, purges finished jobs oldest-first by
`(finish time, falling back to start time, then job id)`; unfinished jobs
are never purged. -/
theorem C8_cleanup (jobs : List (String × JobRecord)) (now : Int)
    (hids : (jobs.map (fun jr => jr.1)).Nodup) :
    (∀ jr, jr ∈ jobs → jr.2.finished = false → jr ∈ cleanupRefreshJobs jobs now) ∧
    (∀ jr (t : Int), jr ∈ jobs → jr.2.finished = true → jobTimeKey jr.2 = some t →
      t < now - 86400 → jr ∉ cleanupRefreshJobs jobs now) ∧
    ((ttlKept jobs now).length ≤ 200 → cleanupRefreshJobs jobs now = ttlKept jobs now) ∧
    (∀ jr, jr ∈ ttlKept jobs now → jr ∉ cleanupRefreshJobs jobs now →
      jr.2.finished = true ∧
      ∀ jr', jr' ∈ cleanupRefreshJobs jobs now → jr'.2.finished = true →
        keyLe (jobSortKey jr.1 jr.2) (jobSortKey jr'.1 jr'.2)) ∧
    (∀ jobId, getJobStatus jobs jobId now =
      (cleanupRefreshJobs jobs now, (cleanupRefreshJobs jobs now).lookup jobId)) := by
  have hkeptids : ((ttlKept jobs now).map (fun jr => jr.1)).Nodup :=
    List.Nodup.sublist (List.Sublist.map _ (List.filter_sublist jobs)) hids
  have hinj : ∀ a, a ∈ ttlKept jobs now → ∀ b, b ∈ ttlKept jobs now →
      a.1 = b.1 → a = b := by
    intro a ha b hb hab
    exact List.inj_on_of_nodup_map hkeptids ha hb hab
  refine ⟨?_, ?_, ?_, ?_, ?_⟩
  · -- unfinished jobs are never purged
    intro jr hjr hfin
    have hkept : jr ∈ ttlKept jobs now :=
      List.mem_filter.mpr ⟨hjr, by simp [hfin]⟩
    unfold cleanupRefreshJobs
    split
    · exact hkept
    · refine List.mem_filter.mpr ⟨hkept, ?_⟩
      have hnodoom : jr.1 ∉ capDoomed (ttlKept jobs now)
          (((ttlKept jobs now).length : Int) - (REFRESH_JOB_MAX_STORED : Int)).toNat := by
        intro hdoom
        rcases mem_capDoomed_exists _ _ _ hdoom with ⟨jr2, hjr2, hfin2, hid2⟩
        have heq := hinj jr2 hjr2 jr hkept hid2
        rw [heq, hfin] at hfin2
        cases hfin2
      simpa using hnodoom
  · -- TTL-stale finished jobs are purged
    intro jr t hjr hfin hkey hstale hmem
    have hkept : jr ∈ ttlKept jobs now := cleanup_subset_ttlKept jobs now jr hmem
    have hpred := (List.mem_filter.mp hkept).2
    rw [hfin, hkey] at hpred
    simp only [Bool.true_and, Bool.not_eq_eq_eq_not, Bool.not_true,
      decide_eq_false_iff_not, not_lt] at hpred
    have : (24 : Int) * 3600 = 86400 := by norm_num
    simp only [REFRESH_JOB_TTL_HOURS] at hpred
    omega
  · -- the cap phase is inactive when the whole table fits the cap
    intro hle
    unfold cleanupRefreshJobs
    rw [if_pos (by push_cast [REFRESH_JOB_MAX_STORED]; omega)]
  · -- cap-phase purges hit finished jobs only, oldest first
    intro jr hkept hnot
    have hov : ¬ ((ttlKept jobs now).length : Int) - (REFRESH_JOB_MAX_STORED : Int) ≤ 0 := by
      intro hle
      exact hnot (by unfold cleanupRefreshJobs; rw [if_pos hle]; exact hkept)
    have hremoved : jr.1 ∈ capDoomed (ttlKept jobs now)
        (((ttlKept jobs now).length : Int) - (REFRESH_JOB_MAX_STORED : Int)).toNat := by
      by_contra hno
      apply hnot
      unfold cleanupRefreshJobs
      rw [if_neg hov]
      refine List.mem_filter.mpr ⟨hkept, ?_⟩
      simpa using hno
    have hfin : jr.2.finished = true := by
      rcases mem_capDoomed_exists _ _ _ hremoved with ⟨jr2, hjr2, hfin2, hid2⟩
      have := hinj jr2 hjr2 jr hkept hid2
      rw [← this]
      exact hfin2
    refine ⟨hfin, ?_⟩
    intro jr' hjr' hfin'
    set sortable := ((ttlKept jobs now).filter (fun jr => jr.2.finished)).map
      (fun jr => jobSortKey jr.1 jr.2) with hsortable
    set ovf := (((ttlKept jobs now).length : Int) - (REFRESH_JOB_MAX_STORED : Int)).toNat
      with hovf
    have hsorted : List.Sorted keyLe (List.insertionSort keyLe sortable) :=
      List.sorted_insertionSort keyLe sortable
    have hcross : ∀ x ∈ (List.insertionSort keyLe sortable).take ovf,
        ∀ y ∈ (List.insertionSort keyLe sortable).drop ovf, keyLe x y := by
      have hp : List.Pairwise keyLe ((List.insertionSort keyLe sortable).take ovf ++
          (List.insertionSort keyLe sortable).drop ovf) := by
        rw [List.take_append_drop]
        exact hsorted
      exact (List.pairwise_append.mp hp).2.2
    -- the key of the removed job sits in the taken prefix
    have hjrkey : jobSortKey jr.1 jr.2 ∈ (List.insertionSort keyLe sortable).take ovf := by
      rcases List.mem_map.mp hremoved with ⟨p, hp, hpx⟩
      rcases List.mem_map.mp ((List.perm_insertionSort keyLe _).mem_iff.mp
        (List.mem_of_mem_take hp)) with ⟨jr3, hjr3, hjr3p⟩
      have hjr3' := List.mem_filter.mp hjr3
      have hid3 : jr3.1 = jr.1 := by rw [← hpx, ← hjr3p]; rfl
      have : jr3 = jr := hinj jr3 hjr3'.1 jr hkept hid3
      rw [← hjr3p, this] at hp
      exact hp
    -- the key of a surviving finished job sits in the dropped suffix
    have hjr'kept : jr' ∈ ttlKept jobs now := cleanup_subset_ttlKept jobs now jr' hjr'
    have hjr'nodoom : jr'.1 ∉ capDoomed (ttlKept jobs now) ovf := by
      have hmem2 := hjr'
      unfold cleanupRefreshJobs at hmem2
      rw [if_neg hov] at hmem2
      have hpred := (List.mem_filter.mp hmem2).2
      simpa [hovf] using hpred
    have hjr'key : jobSortKey jr'.1 jr'.2 ∈ (List.insertionSort keyLe sortable).drop ovf := by
      have hmemsort : jobSortKey jr'.1 jr'.2 ∈ List.insertionSort keyLe sortable := by
        apply (List.perm_insertionSort keyLe _).mem_iff.mpr
        exact List.mem_map.mpr ⟨jr', List.mem_filter.mpr ⟨hjr'kept, hfin'⟩, rfl⟩
      have hsplit : jobSortKey jr'.1 jr'.2 ∈
          (List.insertionSort keyLe sortable).take ovf ++
          (List.insertionSort keyLe sortable).drop ovf := by
        rw [List.take_append_drop]
        exact hmemsort
      rcases List.mem_append.mp hsplit with h | h
      · exact absurd (List.mem_map.mpr ⟨_, h, rfl⟩) hjr'nodoom
      · exact h
    exact hcross _ hjrkey _ hjr'key
  · intro jobId
    rfl

/-- Witness for C8: a two-job table (one running, one finished) well below
the cap: the running job survives collection and the cap phase stays
inactive. -/
theorem C8_cleanup_witness :
    ("a", runningJobRec) ∈ cleanupRefreshJobs
      [("a", runningJobRec), ("b", finishedJobRec 5)] 10 ∧
    cleanupRefreshJobs [("a", runningJobRec), ("b", finishedJobRec 5)] 10 =
      ttlKept [("a", runningJobRec), ("b", finishedJobRec 5)] 10 :=
  ⟨(C8_cleanup [("a", runningJobRec), ("b", finishedJobRec 5)] 10 (by decide)).1
      ("a", runningJobRec) (by decide) rfl,
   (C8_cleanup [("a", runningJobRec), ("b", finishedJobRec 5)] 10 (by decide)).2.2.1
      (by decide)⟩

set_option maxRecDepth 10000 in
/-- C8 counterexample: in a table of 200 unfinished jobs plus one fresh
finished job `"f"` (finished-job count 1, far below the 200-job cap, and
not TTL-stale), garbage collection nevertheless purges `"f"`, because the
code compares the **total** job count — not the finished count — against
the cap. -/
theorem C8_counterexample :
    (bigJobs.filter (fun jr => jr.2.finished)).length = 1 ∧
    bigJobs.length = 201 ∧
    bigJobs.lookup "f" = some (finishedJobRec 1000000) ∧
    jobTimeKey (finishedJobRec 1000000) = some 1000000 ∧
    ¬((1000000 : Int) < 1000000 - REFRESH_JOB_TTL_HOURS * 3600) ∧
    (cleanupRefreshJobs bigJobs 1000000).lookup "f" = none := by decide

/-- Prepending `https:` to any string makes its parsed scheme `https`. -/
theorem urlScheme_httpsCodes_append (v : List Nat) :
    urlScheme (httpsCodes ++ v) = strCodes "https" := rfl

/-- C9: media-URL normalization decodes JSON-escaped unicode and backslash
sequences, upgrades protocol-relative URLs (those whose decoded candidate
starts with `//`) to https, and returns none whenever the final value's
scheme — parsed as `urlsplit` does, after dropping leading C0
controls/spaces and deleting every tab, CR and LF — is neither http nor
https; concretely `//example.com/a.jpg` normalizes to
`https://example.com/a.jpg`, a `javascript:` URL normalizes to none, both
JSON-style escapes of `https://…` decode to the plain URL, a tab inside
`ht\ttp://x` or a leading `\x01` is ignored by the scheme parse (the
garbled URL is returned as is), while a mid-string `\x01` is not removed
and the URL is rejected. -/
theorem C9_normalize_media_url :
    (∀ raw : List Nat, raw ≠ [] → (normalizedCandidate raw).take 2 = [47, 47] →
      normalizeMediaUrl raw = some (httpsCodes ++ normalizedCandidate raw)) ∧
    (∀ raw v2 : List Nat,
      v2 = (if (normalizedCandidate raw).take 2 = [47, 47] then
        httpsCodes ++ normalizedCandidate raw else normalizedCandidate raw) →
      urlScheme v2 ≠ strCodes "http" → urlScheme v2 ≠ strCodes "https" →
      normalizeMediaUrl raw = none) ∧
    (normalizeMediaUrl (strCodes "//example.com/a.jpg") =
        some (strCodes "https://example.com/a.jpg") ∧
      normalizeMediaUrl (strCodes "javascript:alert(1)") = none ∧
      normalizeMediaUrl (strCodes "https:\\u002F\\u002Fexample.com/a") =
        some (strCodes "https://example.com/a") ∧
      normalizeMediaUrl (strCodes "https:\\/\\/e.com/b") =
        some (strCodes "https://e.com/b") ∧
      normalizeMediaUrl (strCodes "ht\ttp://x") = some (strCodes "ht\ttp://x") ∧
      normalizeMediaUrl (strCodes "\x01http://x") =
        some (strCodes "\x01http://x") ∧
      normalizeMediaUrl (strCodes "ja\tvascript:alert(1)") = none ∧
      normalizeMediaUrl (strCodes "h\x01ttp://x") = none) := by
  refine ⟨?_, ?_, ?_⟩
  · intro raw hraw htake
    have hv : normalizedCandidate raw ≠ [] := by
      intro h
      rw [h] at htake
      cases htake
    simp [normalizeMediaUrl, hraw, hv, htake, urlScheme_httpsCodes_append]
  · intro raw v2 hv2 hnh hns
    by_cases hraw : raw = []
    · simp [normalizeMediaUrl, hraw]
    · by_cases hv : normalizedCandidate raw = []
      · simp [normalizeMediaUrl, hraw, hv]
      · subst hv2
        simp only [normalizeMediaUrl, if_neg hraw, if_neg hv]
        rw [if_neg]
        push_neg
        exact ⟨hnh, hns⟩
  · exact ⟨by decide, by decide, by decide, by decide, by decide, by decide,
      by decide, by decide⟩

/-- Witness for C9: the protocol-relative upgrade applied to the concrete
`//example.com/a.jpg`, and the scheme rejection applied to the concrete
`javascript:` URL. -/
theorem C9_normalize_media_url_witness :
    normalizeMediaUrl (strCodes "//example.com/a.jpg") =
      some (httpsCodes ++ normalizedCandidate (strCodes "//example.com/a.jpg")) ∧
    normalizeMediaUrl (strCodes "javascript:alert(1)") = none :=
  ⟨C9_normalize_media_url.1 (strCodes "//example.com/a.jpg") (by decide) (by decide),
   C9_normalize_media_url.2.1 (strCodes "javascript:alert(1)")
     (if (normalizedCandidate (strCodes "javascript:alert(1)")).take 2 = [47, 47] then
       httpsCodes ++ normalizedCandidate (strCodes "javascript:alert(1)")
     else normalizedCandidate (strCodes "javascript:alert(1)"))
     rfl (by decide) (by decide)⟩

end ShortsTracker
